import Mathlib

/-!
# Dubai Housing Affordability Explorer — verification of the financial metrics engine

A shallow embedding, over exact rational arithmetic, of the arithmetic core of
the repository: the affordability calculator and rent-vs-buy projection of
`src/modules/affordability_calculator.py`, and the comparative statistics of
`src/modules/comparison_tool.py`.

Python floats are modelled as `ℚ`; Python `int(...)` conversion (truncation
toward zero) is `pyInt`; a division whose denominator may be zero is modelled
as a fallible computation returning `Except`.
-/

namespace DubaiHousing

/-! ## Affordability calculator (`src/modules/affordability_calculator.py`) -/

/-- Line 117: `monthly_income = yearly_income / 12 + additional_income`. -/
def monthly_income (yearly_income additional_income : ℚ) : ℚ :=
  yearly_income / 12 + additional_income

/-- Line 120: `affordable_rent = monthly_income * (rent_income_ratio / 100)`
(the UI slider supplies the ratio as a percentage, e.g. `30`). -/
def affordable_rent (mi rent_income_ratio : ℚ) : ℚ :=
  mi * (rent_income_ratio / 100)

/-- Line 123: `affordable_yearly_rent = affordable_rent * 12`. -/
def affordable_yearly_rent (ar : ℚ) : ℚ := ar * 12

/-- Line 126: `monthly_payment_capacity = affordable_rent - debt_payments`. -/
def monthly_payment_capacity (ar debt_payments : ℚ) : ℚ := ar - debt_payments

/-- Line 129: `r = mortgage_interest / 100 / 12` (monthly interest rate). -/
def monthly_rate (mortgage_interest : ℚ) : ℚ := mortgage_interest / 100 / 12

/-- Line 130: `n = mortgage_term * 12` (total number of payments). -/
def num_payments (mortgage_term : ℕ) : ℕ := mortgage_term * 12

/-- Lines 133–136: the present-value formula
`max_mortgage = monthly_payment_capacity * ((1 - (1 + r) ** -n) / r)` when
`r > 0`, else `monthly_payment_capacity * n`.  The Python real power
`(1 + r) ** -n` with integer `-n` is `((1 + r) ^ n)⁻¹` over `ℚ`. -/
def max_mortgage (r : ℚ) (n : ℕ) (monthly_payment_capacity : ℚ) : ℚ :=
  if 0 < r then monthly_payment_capacity * ((1 - ((1 + r) ^ n)⁻¹) / r)
  else monthly_payment_capacity * n

/-- Line 139: `max_purchase_price = max_mortgage + down_payment`. -/
def max_purchase_price (mm down_payment : ℚ) : ℚ := mm + down_payment

/-- Line 226: the amortized payment formula
`monthly_mortgage = max_mortgage * (r * (1 + r) ** n) / ((1 + r) ** n - 1)`
when `r > 0`, else `max_mortgage / n`. -/
def monthly_mortgage (mm r : ℚ) (n : ℕ) : ℚ :=
  if 0 < r then mm * (r * (1 + r) ^ n) / ((1 + r) ^ n - 1)
  else mm / (n : ℚ)

/-! ## Rent-vs-buy projection (`src/modules/affordability_calculator.py`, lines 219–238)

`years = list(range(1, 11))`; index `i : ℕ` below ranges over `0, …, 9`,
standing for year `i + 1`. -/

/-- Line 222: `rent_costs = [affordable_yearly_rent * ((1 + 0.05) ** i) for i in range(10)]`. -/
def rent_cost (ayr : ℚ) (i : ℕ) : ℚ := ayr * (1 + 5 / 100) ^ i

/-- Line 223: `cumulative_rent = np.cumsum(rent_costs)`; entry `k` is the sum
of the first `k + 1` rent costs. -/
def cumulative_rent (ayr : ℚ) (k : ℕ) : ℚ :=
  ∑ i ∈ Finset.range (k + 1), rent_cost ayr i

/-- Line 227: `yearly_mortgage = monthly_mortgage * 12`. -/
def yearly_mortgage (mmg : ℚ) : ℚ := mmg * 12

/-- Lines 228–232: `mortgage_costs = [yearly_mortgage] * 10`,
`cumulative_mortgage = np.cumsum(mortgage_costs) + down_payment`
(the broadcast adds the down payment to every cumulative entry, equivalently
to the first year's cost). -/
def cumulative_mortgage (mmg down_payment : ℚ) (k : ℕ) : ℚ :=
  (∑ _i ∈ Finset.range (k + 1), yearly_mortgage mmg) + down_payment

/-- Line 235: `property_values = [max_purchase_price * ((1 + 0.03) ** i) for i in range(10)]`. -/
def property_value (mpp : ℚ) (i : ℕ) : ℚ := mpp * (1 + 3 / 100) ^ i

/-- Line 238: `net_buying_cost = cumulative_mortgage - np.array(property_values) + max_purchase_price`. -/
def net_buying_cost (mmg down_payment mpp : ℚ) (k : ℕ) : ℚ :=
  cumulative_mortgage mmg down_payment k - property_value mpp k + mpp

/-! ## Comparison tool (`src/modules/comparison_tool.py`) -/

/-- Python `int(x)` conversion of a real number: truncation toward zero. -/
def pyInt (q : ℚ) : ℤ := if q < 0 then ⌈q⌉ else ⌊q⌋

/-- Line 174: `affordable_yearly_rent = annual_income * 0.3`. -/
def affordable_yearly_rent_ct (annual_income : ℚ) : ℚ := annual_income * (3 / 10)

/-- Line 187: `affordability_ratio = avg_price / affordable_yearly_rent`.
The source divides unconditionally; a zero denominator is an arithmetic fault
of the host runtime (a non-finite value / error propagated downstream), which
the embedding makes explicit as `Except.error`.  No sentinel value is returned. -/
def affordability_ratio (avg_price ayr : ℚ) : Except Unit ℚ :=
  if ayr = 0 then Except.error () else Except.ok (avg_price / ayr)

/-- Modelled from the spec: the §7 `DivisionByZero` guard, under which a ratio
computation with zero denominator returns the sentinel `none` instead of
faulting.  Stated only to compare with `affordability_ratio` above. -/
def affordability_ratio_sentinel (avg_price ayr : ℚ) : Option ℚ :=
  if ayr = 0 then none else some (avg_price / ayr)

/-- Line 189:
`affordability_score = max(0, min(100, int((1 - (affordability_ratio - 1)) * 100))) if affordability_ratio > 1 else 100`. -/
def affordability_score (ratio : ℚ) : ℤ :=
  if 1 < ratio then max 0 (min 100 (pyInt ((1 - (ratio - 1)) * 100))) else 100

/-- The score as the spec's words state it, with `round` in place of the
source's `int` truncation; stated only to compare with `affordability_score`. -/
def affordability_score_round (ratio : ℚ) : ℤ :=
  if 1 < ratio then max 0 (min 100 (round ((1 - (ratio - 1)) * 100))) else 100

/-- Line 192: `within_budget = (nb_data["price_yearly_aed"] <= affordable_yearly_rent).mean() * 100`
— the mean of the boolean series is the count of prices at or below the budget
divided by the number of rows. -/
def within_budget_pct (prices : List ℚ) (budget : ℚ) : ℚ :=
  (((prices.filter fun p => decide (p ≤ budget)).length : ℚ) / (prices.length : ℚ)) * 100

/-! ## Theorems -/

/-- C1: for every monthly rate `r > 0`, term `n > 0` months and capacity
`c ≥ 0`, running the present-value mortgage `max_mortgage` back through the
amortized payment formula `monthly_mortgage` reproduces the capacity exactly
over exact arithmetic. -/
theorem max_mortgage_roundtrip (r c : ℚ) (n : ℕ) (hr : 0 < r) (hn : 0 < n)
    (hc : 0 ≤ c) : monthly_mortgage (max_mortgage r n c) r n = c := by
  have h1 : (1 : ℚ) < 1 + r := by linarith
  have hx : (1 : ℚ) < (1 + r) ^ n := one_lt_pow₀ h1 hn.ne'
  have hx0 : ((1 + r) ^ n : ℚ) ≠ 0 := by positivity
  have hx1 : ((1 + r) ^ n : ℚ) - 1 ≠ 0 := by linarith
  rw [monthly_mortgage, max_mortgage, if_pos hr, if_pos hr]
  field_simp
  ring

/-- Witness for C1 at `r = 1`, `n = 1`, `c = 2`. -/
theorem max_mortgage_roundtrip_witness :
    (0 : ℚ) < 1 ∧ 0 < 1 ∧ (0 : ℚ) ≤ 2 ∧ monthly_mortgage (max_mortgage 1 1 2) 1 1 = 2 :=
  ⟨by norm_num, by norm_num, by norm_num,
    max_mortgage_roundtrip 1 2 1 (by norm_num) (by norm_num) (by norm_num)⟩

/-- C2 counterexample: at the example scenario the mortgage the code computes,
`3000 * ((1 - (1 + 0.04/12)^(-300)) / (0.04/12)) = 568357.56…`, is strictly
below the claimed lower bound of 569 000 AED. -/
theorem example_scenario_mortgage_below_spec_range :
    max_mortgage (monthly_rate 4) (num_payments 25) 3000 < 569000 := by
  unfold max_mortgage monthly_rate num_payments
  norm_num

/-- C2 as amended: all scenario values as claimed, except that the exact
`max_mortgage` lies in the range 568 000–575 000 AED (it is `568357.56…`,
below the claimed lower bound of 569 000). -/
theorem example_scenario_values :
    monthly_income 200000 0 = 50000 / 3 ∧
    round (monthly_income 200000 0 * 100) = 1666667 ∧
    affordable_rent (monthly_income 200000 0) 30 = 5000 ∧
    affordable_yearly_rent (affordable_rent (monthly_income 200000 0) 30) = 60000 ∧
    monthly_payment_capacity (affordable_rent (monthly_income 200000 0) 30) 2000 = 3000 ∧
    568000 < max_mortgage (monthly_rate 4) (num_payments 25) 3000 ∧
    max_mortgage (monthly_rate 4) (num_payments 25) 3000 < 575000 ∧
    max_purchase_price (max_mortgage (monthly_rate 4) (num_payments 25) 3000) 50000 =
      max_mortgage (monthly_rate 4) (num_payments 25) 3000 + 50000 := by
  refine ⟨?_, ?_, ?_, ?_, ?_, ?_, ?_, rfl⟩
  · unfold monthly_income; norm_num
  · unfold monthly_income; norm_num [round_eq]
  · unfold monthly_income affordable_rent; norm_num
  · unfold monthly_income affordable_rent affordable_yearly_rent; norm_num
  · unfold monthly_income affordable_rent monthly_payment_capacity; norm_num
  · unfold max_mortgage monthly_rate num_payments; norm_num
  · unfold max_mortgage monthly_rate num_payments; norm_num

/-- C3 counterexample: with zero income, the 30 % ratio and 2000 AED of
monthly debt, the computed capacity is `-2000` and the calculator returns a
strictly negative `max_mortgage` (about `-378 905` AED), not `0`. -/
theorem negative_capacity_negative_mortgage :
    monthly_payment_capacity (affordable_rent (monthly_income 0 0) 30) 2000 = -2000 ∧
    max_mortgage (monthly_rate 4) (num_payments 25)
      (monthly_payment_capacity (affordable_rent (monthly_income 0 0) 30) 2000) < 0 := by
  constructor
  · unfold monthly_income affordable_rent monthly_payment_capacity; norm_num
  · unfold monthly_income affordable_rent monthly_payment_capacity max_mortgage
      monthly_rate num_payments
    norm_num

/-- C3 as amended: the code has no `NegativeCapacity` branch — for capacity
`c ≤ 0` (and `r > 0`, `n > 0`) it applies the same present-value formula,
producing a non-positive mortgage that is surfaced like any other result. -/
theorem max_mortgage_nonpos_of_capacity_nonpos (r c : ℚ) (n : ℕ) (hr : 0 < r)
    (hn : 0 < n) (hc : c ≤ 0) :
    max_mortgage r n c = c * ((1 - ((1 + r) ^ n)⁻¹) / r) ∧ max_mortgage r n c ≤ 0 := by
  have h1 : (1 : ℚ) < 1 + r := by linarith
  have hx : (1 : ℚ) < (1 + r) ^ n := one_lt_pow₀ h1 hn.ne'
  have hx0 : (0 : ℚ) < (1 + r) ^ n := by positivity
  have hxi : ((1 + r) ^ n : ℚ)⁻¹ ≤ 1 := by
    rw [inv_le_one_iff₀]
    exact Or.inr hx.le
  have hfac : 0 ≤ (1 - ((1 + r) ^ n : ℚ)⁻¹) / r :=
    div_nonneg (by linarith) hr.le
  constructor
  · rw [max_mortgage, if_pos hr]
  · rw [max_mortgage, if_pos hr]
    exact mul_nonpos_of_nonpos_of_nonneg hc hfac

/-- Witness for C3's amended theorem at `r = 1`, `n = 1`, `c = -2`. -/
theorem max_mortgage_nonpos_witness :
    (0 : ℚ) < 1 ∧ 0 < 1 ∧ (-2 : ℚ) ≤ 0 ∧
      (max_mortgage 1 1 (-2) = -2 * ((1 - ((1 + 1) ^ 1)⁻¹) / 1) ∧
        max_mortgage 1 1 (-2) ≤ 0) :=
  ⟨by norm_num, by norm_num, by norm_num,
    max_mortgage_nonpos_of_capacity_nonpos 1 (-2) 1 (by norm_num) (by norm_num) (by norm_num)⟩

/-- C6: within the ten-year horizon the cumulative rent series is strictly
increasing in the year index when the affordable yearly rent is positive, and
non-decreasing whenever it is non-negative (the code fixes the growth rate at
5 % > 0). -/
theorem cumulative_rent_monotone (ayr : ℚ) (k : ℕ) (hk : k < 9) :
    (0 < ayr → cumulative_rent ayr k < cumulative_rent ayr (k + 1)) ∧
    (0 ≤ ayr → cumulative_rent ayr k ≤ cumulative_rent ayr (k + 1)) := by
  have hstep : cumulative_rent ayr (k + 1) = cumulative_rent ayr k + rent_cost ayr (k + 1) := by
    simp [cumulative_rent, Finset.sum_range_succ]
  have hpow : (0 : ℚ) < (1 + 5 / 100) ^ (k + 1) := by positivity
  constructor
  · intro h
    have : 0 < rent_cost ayr (k + 1) := mul_pos h hpow
    rw [hstep]; linarith
  · intro h
    have : 0 ≤ rent_cost ayr (k + 1) := mul_nonneg h hpow.le
    rw [hstep]; linarith

/-- Witness for C6 at `ayr = 60000`, `k = 3`. -/
theorem cumulative_rent_monotone_witness :
    3 < 9 ∧
      ((0 < (60000 : ℚ) → cumulative_rent 60000 3 < cumulative_rent 60000 4) ∧
        (0 ≤ (60000 : ℚ) → cumulative_rent 60000 3 ≤ cumulative_rent 60000 4)) :=
  ⟨by norm_num, cumulative_rent_monotone 60000 3 (by norm_num)⟩

/-- C9: with a zero monthly rate the calculator takes the `else` branch and
`max_mortgage` is exactly the capacity times the number of payments. -/
theorem max_mortgage_zero_rate (c : ℚ) (n : ℕ) : max_mortgage 0 n c = c * n := by
  simp [max_mortgage]

/-- C10: the net buying cost at year 1 (index 0) is exactly one year of
mortgage payments plus the down payment, for every loan amount, purchase
price, down payment, rate and term: the appreciated value at year 1 equals
`max_purchase_price`, cancelling the added-back `max_purchase_price`. -/
theorem net_buying_cost_year_one (M dp mpp r : ℚ) (n : ℕ) :
    net_buying_cost (monthly_mortgage M r n) dp mpp 0 = monthly_mortgage M r n * 12 + dp := by
  simp [net_buying_cost, cumulative_mortgage, property_value, yearly_mortgage]

/-- Truncation toward zero is monotone. -/
lemma pyInt_mono {x y : ℚ} (h : x ≤ y) : pyInt x ≤ pyInt y := by
  unfold pyInt
  by_cases hx : x < 0 <;> by_cases hy : y < 0
  · rw [if_pos hx, if_pos hy]
    exact Int.ceil_le_ceil h
  · rw [if_pos hx, if_neg hy]
    refine le_trans (Int.ceil_le.mpr ?_) (Int.floor_nonneg.mpr (not_lt.mp hy))
    exact_mod_cast hx.le
  · exact absurd (lt_of_le_of_lt h hy) (fun hc => hx hc)
  · rw [if_neg hx, if_neg hy]
    exact Int.floor_le_floor h

/-- The score of the source is antitone in the ratio. -/
lemma affordability_score_antitone {r₁ r₂ : ℚ} (h : r₁ ≤ r₂) :
    affordability_score r₂ ≤ affordability_score r₁ := by
  unfold affordability_score
  by_cases h1 : 1 < r₁
  · rw [if_pos h1, if_pos (lt_of_lt_of_le h1 h)]
    have hle : (1 - (r₂ - 1)) * 100 ≤ (1 - (r₁ - 1)) * 100 := by linarith
    exact max_le_max le_rfl (min_le_min le_rfl (pyInt_mono hle))
  · rw [if_neg h1]
    by_cases h2 : 1 < r₂
    · rw [if_pos h2]
      exact max_le (by norm_num) (min_le_left _ _)
    · rw [if_neg h2]

/-- The score of the source always lies in `[0, 100]`. -/
lemma affordability_score_bounds (r : ℚ) :
    0 ≤ affordability_score r ∧ affordability_score r ≤ 100 := by
  unfold affordability_score
  split
  · exact ⟨le_max_left _ _, max_le (by norm_num) (min_le_left _ _)⟩
  · norm_num

/-- C4 counterexample: at `avg_price = 1493`, `affordable_yearly_rent = 1000`
the ratio is `1.493 > 1` and `(1 - (ratio - 1)) * 100 = 50.7`; the code's
`int` truncation yields a score of `50`, while the claimed `round` formula
yields `51`. -/
theorem affordability_score_truncates_not_rounds :
    1 < (1493 : ℚ) / 1000 ∧
    affordability_score ((1493 : ℚ) / 1000) = 50 ∧
    affordability_score_round ((1493 : ℚ) / 1000) = 51 := by
  refine ⟨by norm_num, ?_, ?_⟩
  · unfold affordability_score pyInt
    norm_num
  · unfold affordability_score_round
    norm_num [round_eq]

/-- C4 as amended: with `int` truncation toward zero in place of `round`, the
score is `100` for ratio `≤ 1`, equals `clamp(0, 100, trunc((1-(ratio-1))*100))`
for ratio `> 1`, always lies in `[0, 100]`, and is non-increasing as
`avg_price` grows with `affordable_yearly_rent > 0` fixed. -/
theorem affordability_score_props (avg₁ avg₂ avg ayr : ℚ) (hayr : 0 < ayr)
    (h12 : avg₁ ≤ avg₂) :
    (avg / ayr ≤ 1 → affordability_score (avg / ayr) = 100) ∧
    (1 < avg / ayr → affordability_score (avg / ayr)
        = max 0 (min 100 (pyInt ((1 - (avg / ayr - 1)) * 100)))) ∧
    (0 ≤ affordability_score (avg / ayr) ∧ affordability_score (avg / ayr) ≤ 100) ∧
    affordability_score (avg₂ / ayr) ≤ affordability_score (avg₁ / ayr) := by
  refine ⟨?_, ?_, affordability_score_bounds _, ?_⟩
  · intro hle
    unfold affordability_score
    rw [if_neg (not_lt.mpr hle)]
  · intro hgt
    unfold affordability_score
    rw [if_pos hgt]
  · exact affordability_score_antitone (by gcongr)

/-- Witness for C4's amended theorem at `avg₁ = 1400`, `avg₂ = 1493`,
`avg = 500`, `ayr = 1000`. -/
theorem affordability_score_props_witness :
    (0 : ℚ) < 1000 ∧ (1400 : ℚ) ≤ 1493 ∧
      (((500 : ℚ) / 1000 ≤ 1 → affordability_score ((500 : ℚ) / 1000) = 100) ∧
        (1 < (500 : ℚ) / 1000 → affordability_score ((500 : ℚ) / 1000)
            = max 0 (min 100 (pyInt ((1 - ((500 : ℚ) / 1000 - 1)) * 100)))) ∧
        (0 ≤ affordability_score ((500 : ℚ) / 1000) ∧
          affordability_score ((500 : ℚ) / 1000) ≤ 100) ∧
        affordability_score ((1493 : ℚ) / 1000) ≤ affordability_score ((1400 : ℚ) / 1000)) :=
  ⟨by norm_num, by norm_num,
    affordability_score_props 1400 1493 500 1000 (by norm_num) (by norm_num)⟩

/-- C7: for a non-empty group, `pct_within_budget` is `100` times the count of
prices at or below the budget divided by the row count, lies in `[0, 100]`,
is `100` exactly when every price is within budget and `0` exactly when none
is. -/
theorem within_budget_pct_props (prices : List ℚ) (budget : ℚ) (hne : prices ≠ []) :
    within_budget_pct prices budget =
      100 * ((prices.filter fun p => decide (p ≤ budget)).length : ℚ) / (prices.length : ℚ) ∧
    (0 ≤ within_budget_pct prices budget ∧ within_budget_pct prices budget ≤ 100) ∧
    (within_budget_pct prices budget = 100 ↔ ∀ p ∈ prices, p ≤ budget) ∧
    (within_budget_pct prices budget = 0 ↔ ∀ p ∈ prices, ¬ p ≤ budget) := by
  have hn : 0 < prices.length := List.length_pos.mpr hne
  have hnq : (0 : ℚ) < (prices.length : ℚ) := by exact_mod_cast hn
  have hcn : (prices.filter fun p => decide (p ≤ budget)).length ≤ prices.length :=
    List.length_filter_le _ _
  have hcq : ((prices.filter fun p => decide (p ≤ budget)).length : ℚ) ≤ (prices.length : ℚ) := by
    exact_mod_cast hcn
  refine ⟨?_, ⟨?_, ?_⟩, ?_, ?_⟩
  · unfold within_budget_pct; ring
  · unfold within_budget_pct; positivity
  · unfold within_budget_pct
    rw [div_mul_eq_mul_div, div_le_iff₀ hnq]
    nlinarith
  · unfold within_budget_pct
    rw [div_mul_eq_mul_div, div_eq_iff hnq.ne']
    constructor
    · intro h
      have hlen : ((prices.filter fun p => decide (p ≤ budget)).length : ℚ) =
          (prices.length : ℚ) := by linarith
      have hlen' : (prices.filter fun p => decide (p ≤ budget)).length = prices.length := by
        exact_mod_cast hlen
      have heq := (List.filter_sublist prices).eq_of_length hlen'
      intro p hp
      have := List.filter_eq_self.mp heq p hp
      simpa using this
    · intro h
      have heq : prices.filter (fun p => decide (p ≤ budget)) = prices :=
        List.filter_eq_self.mpr fun a ha => by simpa using h a ha
      rw [heq]; ring
  · unfold within_budget_pct
    rw [div_mul_eq_mul_div, div_eq_zero_iff]
    constructor
    · intro h
      have hlen : (prices.filter fun p => decide (p ≤ budget)).length = 0 := by
        rcases h with h | h
        · have : ((prices.filter fun p => decide (p ≤ budget)).length : ℚ) = 0 := by
            by_contra hne'
            have : ((prices.filter fun p => decide (p ≤ budget)).length : ℚ) ≠ 0 := hne'
            exact absurd h (by positivity)
          exact_mod_cast this
        · exact absurd h hnq.ne'
      have : prices.filter (fun p => decide (p ≤ budget)) = [] :=
        List.length_eq_zero.mp hlen
      intro p hp
      have := List.filter_eq_nil_iff.mp this p hp
      simpa using this
    · intro h
      have : prices.filter (fun p => decide (p ≤ budget)) = [] :=
        List.filter_eq_nil_iff.mpr fun a ha => by simpa using h a ha
      rw [this]
      simp

/-- Witness for C7 at the spec's example group `{60000, 70000, 80000}` with
budget `65000` (the percentage is `100/3 ≈ 33.33`). -/
theorem within_budget_pct_props_witness :
    ([60000, 70000, 80000] : List ℚ) ≠ [] ∧
      (within_budget_pct [60000, 70000, 80000] 65000 =
          100 * ((([60000, 70000, 80000] : List ℚ).filter fun p =>
            decide (p ≤ 65000)).length : ℚ) / (([60000, 70000, 80000] : List ℚ).length : ℚ) ∧
        (0 ≤ within_budget_pct [60000, 70000, 80000] 65000 ∧
          within_budget_pct [60000, 70000, 80000] 65000 ≤ 100) ∧
        (within_budget_pct [60000, 70000, 80000] 65000 = 100 ↔
          ∀ p ∈ ([60000, 70000, 80000] : List ℚ), p ≤ 65000) ∧
        (within_budget_pct [60000, 70000, 80000] 65000 = 0 ↔
          ∀ p ∈ ([60000, 70000, 80000] : List ℚ), ¬ p ≤ 65000)) :=
  ⟨by simp, within_budget_pct_props [60000, 70000, 80000] 65000 (by simp)⟩

/-- C8 counterexample: at a zero denominator the unguarded division of the
source is an arithmetic fault (`Except.error`), not the sentinel `none` the
claim describes (shown alongside for contrast). -/
theorem affordability_ratio_faults_on_zero :
    affordability_ratio 70000 0 = Except.error () ∧
    affordability_ratio_sentinel 70000 0 = none := by
  exact ⟨rfl, rfl⟩

/-- C8 as amended: the ratio is computed with no sentinel guard, but in the
comparison tool the denominator is `annual_income * 0.3` with the income
slider bounded below by `50000`, so the denominator is positive and the fault
branch is unreachable: the division always succeeds. -/
theorem affordability_ratio_ok_of_min_income (avg income : ℚ) (h : 50000 ≤ income) :
    0 < affordable_yearly_rent_ct income ∧
    affordability_ratio avg (affordable_yearly_rent_ct income) =
      Except.ok (avg / affordable_yearly_rent_ct income) := by
  have hpos : 0 < affordable_yearly_rent_ct income := by
    unfold affordable_yearly_rent_ct; linarith
  exact ⟨hpos, by unfold affordability_ratio; rw [if_neg hpos.ne']⟩

/-- Witness for C8's amended theorem at `avg = 70000`, `income = 200000`. -/
theorem affordability_ratio_ok_witness :
    (50000 : ℚ) ≤ 200000 ∧
      (0 < affordable_yearly_rent_ct 200000 ∧
        affordability_ratio 70000 (affordable_yearly_rent_ct 200000) =
          Except.ok (70000 / affordable_yearly_rent_ct 200000)) :=
  ⟨by norm_num, affordability_ratio_ok_of_min_income 70000 200000 (by norm_num)⟩

end DubaiHousing
